import Mathlib

/-
Shallow embedding of the neutrino-oscillation simulator
(source files: vector.py, physics_engine.py).

Modelling conventions:
- Python floats are modelled as elements of an abstract linearly ordered
  field K (instantiated with the real numbers in all theorems), so the
  embedding is exact real arithmetic, not floating point.
- The transcendental functions math.cos, math.sin, math.sqrt are passed
  in a record of operations (MathOps); theorems instantiate it with
  Real.cos, Real.sin, Real.sqrt.  This keeps every definition computable.
- Random draws (np.random.uniform, np.random.normal) are lifted to
  explicit oracle parameters (the angle, the emission y-coordinate, and
  the standardised Gaussian deviate z with value = mu + sigma * z).
- Exceptions are modelled with Except: the engine's outer try/except
  logs the error and breaks the run loop, so a .error result of a tick
  means the run loop terminates.
-/

/-- Record of the transcendental operations used by the source
(math.cos, math.sin, math.sqrt); theorems instantiate it at the reals. -/
structure MathOps (K : Type) where
  cos : K → K
  sin : K → K
  sqrt : K → K

section Model

variable {K : Type} [LinearOrderedField K] [FloorRing K]

/-- vector.py, class Vector2D: a 2D vector with float components. -/
structure Vector2D (K : Type) where
  x : K
  y : K

/-- Vector2D.__add__. -/
def Vector2D.add (v w : Vector2D K) : Vector2D K :=
  ⟨v.x + w.x, v.y + w.y⟩

/-- Vector2D.__sub__. -/
def Vector2D.sub (v w : Vector2D K) : Vector2D K :=
  ⟨v.x - w.x, v.y - w.y⟩

/-- Vector2D.__mul__ (scalar on the right). -/
def Vector2D.mul (v : Vector2D K) (scalar : K) : Vector2D K :=
  ⟨v.x * scalar, v.y * scalar⟩

/-- Vector2D.__truediv__: division by zero is guarded and returns the
zero vector. -/
def Vector2D.div (v : Vector2D K) (scalar : K) : Vector2D K :=
  if scalar = 0 then ⟨0, 0⟩ else ⟨v.x / scalar, v.y / scalar⟩

/-- Vector2D.magnitude: math.sqrt(x**2 + y**2). -/
def Vector2D.magnitude (ops : MathOps K) (v : Vector2D K) : K :=
  ops.sqrt (v.x ^ 2 + v.y ^ 2)

/-- Vector2D.normalize: the zero vector when the magnitude is zero. -/
def Vector2D.normalize (ops : MathOps K) (v : Vector2D K) : Vector2D K :=
  if Vector2D.magnitude ops v = 0 then ⟨0, 0⟩
  else Vector2D.div v (Vector2D.magnitude ops v)

/-- physics_engine.py constant DELTA_M2_21 = 7.53e-5 (computed into the
unused arg_sol; kept for completeness). -/
def DELTA_M2_21 : K := 7.53e-5

/-- physics_engine.py constant DELTA_M2_31 = 2.51e-3. -/
def DELTA_M2_31 : K := 2.51e-3

/-- physics_engine.py constant C_LIGHT_SIM = 200.0. -/
def C_LIGHT_SIM : K := 200

/-- The local scale_factor = 10000.0 in Neutrino.propagate. -/
def scale_factor : K := 10000

/-- Flavor probability vector: the numpy array self.probs with indices
0 = electron, 1 = muon, 2 = tau. -/
structure Probs (K : Type) where
  p0 : K
  p1 : K
  p2 : K

/-- The two initial flavors that Neutrino.__init__ accepts. -/
inductive Flavor where
  | electron
  | muon

/-- physics_engine.py, class Neutrino: id, position, velocity (fixed at
creation), energy (MeV), distance_traveled, flavor probabilities. -/
structure Neutrino (K : Type) where
  id : ℕ
  position : Vector2D K
  velocity : Vector2D K
  energy : K
  distance_traveled : K
  probs : Probs K

/-- Neutrino.__init__: the angle is the np.random.uniform(-0.1, 0.1)
draw, lifted to a parameter.  velocity = Vector2D(cos a, sin a) * C_LIGHT_SIM,
distance_traveled = 0, and probs = |state|^2 of the pure flavor
amplitude vector ([1,0,0] for electron, [0,1,0] for muon). -/
def mkNeutrino (ops : MathOps K) (p_id : ℕ) (position : Vector2D K)
    (energy_mev : K) (flavor_init : Flavor) (angle : K) : Neutrino K :=
  { id := p_id
    position := position
    velocity := Vector2D.mul ⟨ops.cos angle, ops.sin angle⟩ C_LIGHT_SIM
    energy := energy_mev
    distance_traveled := 0
    probs := match flavor_init with
      | .electron => ⟨1, 0, 0⟩
      | .muon => ⟨0, 1, 0⟩ }

/-- Neutrino.propagate(dt, mixing_matrix, density_potential).
The mixing_matrix argument is unused in the source and omitted; the
locals arg_sol and prob_survival are computed but never used and are
omitted (they only matter for the failure model, see propagateChecked).
Updates, in source order: distance_traveled += |velocity| * dt;
position += velocity * dt; arg_atm = 1.27 * DELTA_M2_31 *
distance_traveled * scale_factor / energy; probs = [cos(arg_atm)^2,
sin(arg_atm)^2, 0]; then if density_potential > 0.5 the matter effect
overrides probs[0] = 1.0 and probs[1] = 0.0 (probs[2] stays 0). -/
def propagate (ops : MathOps K) (nu : Neutrino K) (dt : K)
    (density_potential : K) : Neutrino K :=
  let step_dist := Vector2D.magnitude ops nu.velocity * dt
  let dist2 := nu.distance_traveled + step_dist
  let pos2 : Vector2D K :=
    ⟨nu.position.x + nu.velocity.x * dt, nu.position.y + nu.velocity.y * dt⟩
  let arg_atm := 1.27 * DELTA_M2_31 * dist2 * scale_factor / nu.energy
  let base : Probs K := ⟨ops.cos arg_atm ^ 2, ops.sin arg_atm ^ 2, 0⟩
  let probs2 : Probs K := if density_potential > 0.5 then ⟨1, 0, base.p2⟩ else base
  { nu with position := pos2, distance_traveled := dist2, probs := probs2 }

/-- Python exception kinds that the engine's message drain and physics
step can raise (caught by the outer try/except, which logs the error
and breaks the run loop). -/
inductive PyErr where
  | typeError
  | valueError

/-- Failure model for Neutrino.propagate.  In the source all arithmetic
is IEEE floating point: when energy == 0.0 and distance_traveled after
the update is nonzero (the phase numerator 1.27 * DELTA_M2_31 * L *
scale_factor is nonzero iff L is), the division yields an infinity and
math.sin(inf) at the prob_survival line raises ValueError.  When both
are zero the division yields nan and the sines return nan silently
(that corner is unreachable for engine particles, whose speed is 200,
and the .ok branch there follows the exact-real semantics instead). -/
def propagateChecked (ops : MathOps K) (nu : Neutrino K) (dt : K)
    (density_potential : K) : Except PyErr (Neutrino K) :=
  if nu.energy = 0 ∧ nu.distance_traveled + Vector2D.magnitude ops nu.velocity * dt ≠ 0 then
    .error .valueError
  else
    .ok (propagate ops nu dt density_potential)

/-- A Python value as it can sit in the control queue: a number, a
string, or a dict (association list, first binding wins on lookup,
matching Python dicts whose keys are unique). -/
inductive PyVal (K : Type) where
  | num : K → PyVal K
  | str : String → PyVal K
  | dict : List (String × PyVal K) → PyVal K

/-- Auxiliary for Python substring containment: does the pattern occur
at the head of the character list? -/
def listStartsWith : List Char → List Char → Bool
  | [], _ => true
  | _ :: _, [] => false
  | a :: as, b :: bs => a == b && listStartsWith as bs

/-- Python `pat in hay` on strings: substring containment. -/
def strContains (hay pat : String) : Bool :=
  (List.range (hay.length + 1)).any fun i =>
    listStartsWith pat.toList (hay.toList.drop i)

/-- Python `v == t` where t is a string literal: true exactly when v is
that string; comparing a non-string against a string is False, never an
error. -/
def isStrEq (v : PyVal K) (t : String) : Bool :=
  match v with
  | .str u => u == t
  | _ => false

/-- The mutable state of simulation_process, lines 86-99: the defaults
energy_beam = 500.0, empty particle list, particle_id_counter = 0,
tick = 0, running = False.  (The local mixing_angle = 0.5 is never
used and is omitted.) -/
structure EngineState (K : Type) where
  energy_beam : K
  neutrinos : List (Neutrino K)
  particle_id_counter : ℕ
  tick : ℕ
  running : Bool

/-- The initial engine state of simulation_process. -/
def initState : EngineState K :=
  { energy_beam := 500
    neutrinos := []
    particle_id_counter := 0
    tick := 0
    running := false }

/-- Handling of one message from param_q (source lines 108-114).
togglable fields: running via command START/STOP (two sequential ifs on
the same value, equivalent to if/elif), energy_beam via
params.beam_energy.  Error cases, mirroring Python semantics:
- `'command' in msg` on a number raises TypeError;
- on a string it is a substring test, and a hit then indexes the string
  with a string key, raising TypeError;
- `'beam_energy' in p` for a non-dict params value raises TypeError
  (number) or, after a substring hit, indexing raises TypeError;
- float(value) on a dict raises TypeError; on a string it raises
  ValueError unless the string parses as a number -- string parsing is
  not modelled (no sender sends strings and no theorem touches that
  case), the model raises ValueError for every string. -/
def applyCmd (s : EngineState K) (kvs : List (String × PyVal K)) : EngineState K :=
  match kvs.lookup "command" with
  | some v =>
      if isStrEq v "START" then { s with running := true }
      else if isStrEq v "STOP" then { s with running := false }
      else s
  | none => s

/-- Handling of one message from param_q, continued: the command part
is applyCmd above, then the params part. -/
def applyMsg (s : EngineState K) (m : PyVal K) : Except PyErr (EngineState K) :=
  match m with
  | .num _ => .error .typeError
  | .str t =>
      if strContains t "command" then .error .typeError
      else if strContains t "params" then .error .typeError
      else .ok s
  | .dict kvs =>
      let s1 := applyCmd s kvs
      match kvs.lookup "params" with
      | none => .ok s1
      | some (.num _) => .error .typeError
      | some (.str t) =>
          if strContains t "beam_energy" then .error .typeError else .ok s1
      | some (.dict pkvs) =>
          match pkvs.lookup "beam_energy" with
          | none => .ok s1
          | some (.num xE) => .ok { s1 with energy_beam := xE }
          | some (.str _) => .error .valueError
          | some (.dict _) => .error .typeError

/-- The non-blocking drain loop (source lines 106-116): messages are
applied one by one in arrival order until the queue is empty; an
exception escapes to the outer handler. -/
def drainMsgs : EngineState K → List (PyVal K) → Except PyErr (EngineState K)
  | s, [] => .ok s
  | s, m :: ms =>
      match applyMsg s m with
      | .error e => .error e
      | .ok s2 => drainMsgs s2 ms

/-- The `message`s the UI sends. -/
def startMsg : PyVal K := .dict [("command", .str "START")]

def stopMsg : PyVal K := .dict [("command", .str "STOP")]

/-- The random draws one tick consumes, lifted to oracle parameters:
angle ~ uniform(-0.1, 0.1) and y0 ~ uniform(250, 350) in the emitter,
and the standardised Gaussian deviate gauss with
e_spread = energy_beam + energy_beam * 0.05 * gauss
(np.random.normal(energy_beam, energy_beam * 0.05)). -/
structure Draws (K : Type) where
  angle : K
  y0 : K
  gauss : K

/-- The sampled emission energy e_spread. -/
def e_spread (s : EngineState K) (d : Draws K) : K :=
  s.energy_beam + s.energy_beam * 0.05 * d.gauss

/-- Emitter (source lines 122-129): when fewer than 150 particles are
live and tick % 5 == 0, append one electron-flavor neutrino at
x = 10, y = y0 and increment the id counter. -/
def emitStep (ops : MathOps K) (s : EngineState K) (d : Draws K) : EngineState K :=
  if s.neutrinos.length < 150 ∧ s.tick % 5 = 0 then
    { s with
        neutrinos := s.neutrinos ++
          [mkNeutrino ops s.particle_id_counter ⟨10, d.y0⟩ (e_spread s d)
            Flavor.electron d.angle]
        particle_id_counter := s.particle_id_counter + 1 }
  else s

/-- The fixed physics timestep dt = 0.016. -/
def dt_sim : K := 0.016

/-- The matter density field (source lines 96-97, 138-140): density 1.0
iff matter_start_x < x < matter_start_x + matter_width, i.e.
400 < x < 500, else 0.0. -/
def matter_start_x : K := 400

def matter_width : K := 100

def densityAt (x : K) : K :=
  if matter_start_x < x ∧ x < matter_start_x + matter_width then 1 else 0

/-- One particle's share of the physics loop (source lines 136-143):
the density is sampled at the pre-step position, then propagate runs
with dt = 0.016. -/
def stepParticle (ops : MathOps K) (nu : Neutrino K) : Neutrino K :=
  propagate ops nu dt_sim (densityAt nu.position.x)

/-- Culling (source lines 145-149): keep exactly the particles with
position.x < 850 (strict), in order. -/
def cullStep (l : List (Neutrino K)) : List (Neutrino K) :=
  l.filter fun nu => nu.position.x < 850

/-- One lowercase hex digit (0-9, a-f). -/
def hexDigit (n : ℕ) : Char :=
  if n < 10 then Char.ofNat (48 + n) else Char.ofNat (87 + n)

/-- Python f-string `%02x` formatting for channel values 0..255: two
lowercase hex digits.  (Channels outside 0..255 never occur in the
engine: the flavor probabilities stay in [0,1].) -/
def toHex2 (n : ℕ) : String :=
  String.mk [hexDigit (n / 16 % 16), hexDigit (n % 16)]

/-- Color packing (source lines 164-170): r = int(probs[0] * 255) etc.
(int() truncates toward zero, which on these non-negative values is the
floor), then "#%02x%02x%02x". -/
def colorOf (pr : Probs K) : String :=
  "#" ++ toHex2 (Int.toNat (Int.floor (pr.p0 * 255)))
      ++ toHex2 (Int.toNat (Int.floor (pr.p1 * 255)))
      ++ toHex2 (Int.toNat (Int.floor (pr.p2 * 255)))

/-- Modelled from the spec words, for refinement comparison only (the
source truncates; the spec says "round(prob * 255), clamped to
[0,255]"): each channel is the rounded value clamped to [0,255]. -/
def roundColorOf (pr : Probs K) : String :=
  "#" ++ toHex2 (Int.toNat (min (max (round (pr.p0 * 255)) 0) 255))
      ++ toHex2 (Int.toNat (min (max (round (pr.p1 * 255)) 0) 255))
      ++ toHex2 (Int.toNat (min (max (round (pr.p2 * 255)) 0) 255))

/-- The outbound snapshot packet (source lines 173-186). -/
structure Packet (K : Type) where
  tick : ℕ
  x : List K
  y : List K
  color : List String
  size : List ℕ
  outline_color : List String
  avg_energy : K
  count : ℕ

/-- Data packing (source lines 151-186), over the post-cull particle
list held in the state: positions, flavor colors, constant size 6,
outline_color = ['#FFFFFF'] * len(neutrinos), avg_energy = energy_beam,
count = len(neutrinos), tick = the pre-increment tick counter. -/
def packetOf (s : EngineState K) : Packet K :=
  { tick := s.tick
    x := s.neutrinos.map fun nu => nu.position.x
    y := s.neutrinos.map fun nu => nu.position.y
    color := s.neutrinos.map fun nu => colorOf nu.probs
    size := s.neutrinos.map fun _ => 6
    outline_color := List.replicate s.neutrinos.length "#FFFFFF"
    avg_energy := s.energy_beam
    count := s.neutrinos.length }

/-- The running part of one tick (source lines 122-189): emission, then
for each particle the density lookup and propagate (the source fuses
the physics and the survivor filtering in one loop; map-then-filter
produces the same list), then the packet is built and published and the
tick counter is incremented. -/
def runTick (ops : MathOps K) (s : EngineState K) (d : Draws K) :
    EngineState K × Packet K :=
  let s1 := emitStep ops s d
  let survivors := cullStep (s1.neutrinos.map (stepParticle ops))
  let s2 := { s1 with neutrinos := survivors }
  ({ s2 with tick := s2.tick + 1 }, packetOf s2)

/-- One iteration of the while-True loop (source lines 103-194): drain
the control inbox first; an exception there reaches the outer handler
which logs it and breaks the loop (.error means the run loop
terminates).  When not running the engine sleeps and continues: no
emission, no physics, no packet, tick unchanged.  When running, the
tick body runs and publishes one packet. -/
def tickOnce (ops : MathOps K) (s : EngineState K) (inbox : List (PyVal K))
    (d : Draws K) : Except PyErr (EngineState K × Option (Packet K)) :=
  match drainMsgs s inbox with
  | .error e => .error e
  | .ok s1 =>
      if s1.running then
        let r := runTick ops s1 d
        .ok (r.1, some r.2)
      else .ok (s1, none)

end Model

/-- The engine states reachable from the initial state of
simulation_process by any sequence of ticks, with arbitrary inbox
contents and random draws within the source's sampling ranges
(angle in [-0.1, 0.1], y0 in [250, 350]; the Gaussian energy deviate is
unbounded). -/
inductive EngineReach : EngineState ℝ → Prop where
  | init : EngineReach initState
  | step (s s2 : EngineState ℝ) (inbox : List (PyVal ℝ)) (d : Draws ℝ)
      (op : Option (Packet ℝ)) :
      EngineReach s →
      -0.1 ≤ d.angle → d.angle ≤ 0.1 → 250 ≤ d.y0 → d.y0 ≤ 350 →
      tickOnce (MathOps.mk Real.cos Real.sin Real.sqrt) s inbox d = .ok (s2, op) →
      EngineReach s2

/-- Every velocity the constructor can produce has magnitude exactly
C_LIGHT_SIM = 200 (the direction is a unit vector). -/
theorem beam_speed (θ : ℝ) :
    Vector2D.magnitude (MathOps.mk Real.cos Real.sin Real.sqrt)
      (Vector2D.mul ⟨Real.cos θ, Real.sin θ⟩ C_LIGHT_SIM) = 200 := by
  have h : (Real.cos θ * C_LIGHT_SIM) ^ 2 + (Real.sin θ * C_LIGHT_SIM) ^ 2
      = (200 : ℝ) ^ 2 := by
    have hp := Real.sin_sq_add_cos_sq θ
    simp only [C_LIGHT_SIM]
    nlinarith [hp]
  show Real.sqrt ((Real.cos θ * C_LIGHT_SIM) ^ 2 + (Real.sin θ * C_LIGHT_SIM) ^ 2) = 200
  rw [h, Real.sqrt_sq (by norm_num : (0 : ℝ) ≤ 200)]

/-- C1: for every particle (all of whose velocities come from the
constructor, which fixes the speed at 200) and every dt > 0, one
propagate call with density 0 (no matter) displaces position by exactly
velocity * dt, adds exactly |velocity| * dt to distance_traveled (hence
leaves it strictly larger), and sets the flavor probabilities to
[cos(arg)^2, sin(arg)^2, 0] with
arg = 1.27 * 2.51e-3 * (updated distance_traveled) * 10000 / energy;
velocity and energy are untouched. -/
theorem propagate_vacuum_advance (p : Neutrino ℝ) (dt θ : ℝ)
    (hdt : 0 < dt)
    (hv : p.velocity = Vector2D.mul ⟨Real.cos θ, Real.sin θ⟩ C_LIGHT_SIM) :
    (propagate (MathOps.mk Real.cos Real.sin Real.sqrt) p dt 0).position.x
        = p.position.x + p.velocity.x * dt ∧
    (propagate (MathOps.mk Real.cos Real.sin Real.sqrt) p dt 0).position.y
        = p.position.y + p.velocity.y * dt ∧
    (propagate (MathOps.mk Real.cos Real.sin Real.sqrt) p dt 0).distance_traveled
        = p.distance_traveled
          + Vector2D.magnitude (MathOps.mk Real.cos Real.sin Real.sqrt) p.velocity * dt ∧
    p.distance_traveled
        < (propagate (MathOps.mk Real.cos Real.sin Real.sqrt) p dt 0).distance_traveled ∧
    (propagate (MathOps.mk Real.cos Real.sin Real.sqrt) p dt 0).probs
        = ⟨Real.cos (1.27 * 2.51e-3
              * (propagate (MathOps.mk Real.cos Real.sin Real.sqrt) p dt 0).distance_traveled
              * 10000 / p.energy) ^ 2,
           Real.sin (1.27 * 2.51e-3
              * (propagate (MathOps.mk Real.cos Real.sin Real.sqrt) p dt 0).distance_traveled
              * 10000 / p.energy) ^ 2, 0⟩ ∧
    (propagate (MathOps.mk Real.cos Real.sin Real.sqrt) p dt 0).velocity = p.velocity ∧
    (propagate (MathOps.mk Real.cos Real.sin Real.sqrt) p dt 0).energy = p.energy := by
  have hmag : Vector2D.magnitude (MathOps.mk Real.cos Real.sin Real.sqrt) p.velocity
      = 200 := by rw [hv]; exact beam_speed θ
  refine ⟨rfl, rfl, rfl, ?_, ?_, rfl, rfl⟩
  · show p.distance_traveled < p.distance_traveled
        + Vector2D.magnitude (MathOps.mk Real.cos Real.sin Real.sqrt) p.velocity * dt
    rw [hmag]
    nlinarith [hdt]
  · show (if (0 : ℝ) > 0.5 then _ else _) = _
    rw [if_neg (by norm_num : ¬((0 : ℝ) > 0.5))]
    norm_num [DELTA_M2_31, scale_factor]
    exact ⟨rfl, rfl⟩

/-- Witness for C1 at the constructor particle with angle 0, energy 500
and dt = 1. -/
theorem propagate_vacuum_advance_witness :
    (0 : ℝ) < 1 ∧
    ((propagate (MathOps.mk Real.cos Real.sin Real.sqrt)
        (mkNeutrino (MathOps.mk Real.cos Real.sin Real.sqrt) 0 ⟨10, 300⟩ 500
          Flavor.electron 0) 1 0).position.x
        = (mkNeutrino (MathOps.mk Real.cos Real.sin Real.sqrt) 0 ⟨10, 300⟩ 500
          Flavor.electron 0).position.x
          + (mkNeutrino (MathOps.mk Real.cos Real.sin Real.sqrt) 0 ⟨10, 300⟩ 500
          Flavor.electron 0).velocity.x * 1 ∧
    (propagate (MathOps.mk Real.cos Real.sin Real.sqrt)
        (mkNeutrino (MathOps.mk Real.cos Real.sin Real.sqrt) 0 ⟨10, 300⟩ 500
          Flavor.electron 0) 1 0).position.y
        = (mkNeutrino (MathOps.mk Real.cos Real.sin Real.sqrt) 0 ⟨10, 300⟩ 500
          Flavor.electron 0).position.y
          + (mkNeutrino (MathOps.mk Real.cos Real.sin Real.sqrt) 0 ⟨10, 300⟩ 500
          Flavor.electron 0).velocity.y * 1 ∧
    (propagate (MathOps.mk Real.cos Real.sin Real.sqrt)
        (mkNeutrino (MathOps.mk Real.cos Real.sin Real.sqrt) 0 ⟨10, 300⟩ 500
          Flavor.electron 0) 1 0).distance_traveled
        = (mkNeutrino (MathOps.mk Real.cos Real.sin Real.sqrt) 0 ⟨10, 300⟩ 500
          Flavor.electron 0).distance_traveled
          + Vector2D.magnitude (MathOps.mk Real.cos Real.sin Real.sqrt)
            (mkNeutrino (MathOps.mk Real.cos Real.sin Real.sqrt) 0 ⟨10, 300⟩ 500
          Flavor.electron 0).velocity * 1 ∧
    (mkNeutrino (MathOps.mk Real.cos Real.sin Real.sqrt) 0 ⟨10, 300⟩ 500
          Flavor.electron 0).distance_traveled
        < (propagate (MathOps.mk Real.cos Real.sin Real.sqrt)
        (mkNeutrino (MathOps.mk Real.cos Real.sin Real.sqrt) 0 ⟨10, 300⟩ 500
          Flavor.electron 0) 1 0).distance_traveled ∧
    (propagate (MathOps.mk Real.cos Real.sin Real.sqrt)
        (mkNeutrino (MathOps.mk Real.cos Real.sin Real.sqrt) 0 ⟨10, 300⟩ 500
          Flavor.electron 0) 1 0).probs
        = ⟨Real.cos (1.27 * 2.51e-3
              * (propagate (MathOps.mk Real.cos Real.sin Real.sqrt)
        (mkNeutrino (MathOps.mk Real.cos Real.sin Real.sqrt) 0 ⟨10, 300⟩ 500
          Flavor.electron 0) 1 0).distance_traveled
              * 10000 / (mkNeutrino (MathOps.mk Real.cos Real.sin Real.sqrt) 0 ⟨10, 300⟩ 500
          Flavor.electron 0).energy) ^ 2,
           Real.sin (1.27 * 2.51e-3
              * (propagate (MathOps.mk Real.cos Real.sin Real.sqrt)
        (mkNeutrino (MathOps.mk Real.cos Real.sin Real.sqrt) 0 ⟨10, 300⟩ 500
          Flavor.electron 0) 1 0).distance_traveled
              * 10000 / (mkNeutrino (MathOps.mk Real.cos Real.sin Real.sqrt) 0 ⟨10, 300⟩ 500
          Flavor.electron 0).energy) ^ 2, 0⟩ ∧
    (propagate (MathOps.mk Real.cos Real.sin Real.sqrt)
        (mkNeutrino (MathOps.mk Real.cos Real.sin Real.sqrt) 0 ⟨10, 300⟩ 500
          Flavor.electron 0) 1 0).velocity
        = (mkNeutrino (MathOps.mk Real.cos Real.sin Real.sqrt) 0 ⟨10, 300⟩ 500
          Flavor.electron 0).velocity ∧
    (propagate (MathOps.mk Real.cos Real.sin Real.sqrt)
        (mkNeutrino (MathOps.mk Real.cos Real.sin Real.sqrt) 0 ⟨10, 300⟩ 500
          Flavor.electron 0) 1 0).energy
        = (mkNeutrino (MathOps.mk Real.cos Real.sin Real.sqrt) 0 ⟨10, 300⟩ 500
          Flavor.electron 0).energy) :=
  ⟨by norm_num,
   propagate_vacuum_advance
     (mkNeutrino (MathOps.mk Real.cos Real.sin Real.sqrt) 0 ⟨10, 300⟩ 500
       Flavor.electron 0) 1 0 (by norm_num) rfl⟩

/-- C2: in one Running-tick physics step (density sampled at the
pre-step position, then propagate with dt = 0.016), a particle whose
pre-step x lies strictly between 400 and 500 gets its flavor
probabilities forced to exactly [1, 0, 0]; a particle whose pre-step
position is outside that region gets the phase-based values
cos(arg)^2 / sin(arg)^2 computed from the accumulated distance; and in
either case distance_traveled keeps accumulating (no reset). -/
theorem stepParticle_matter_effect (p : Neutrino ℝ) :
    ((400 < p.position.x ∧ p.position.x < 500) →
      (stepParticle (MathOps.mk Real.cos Real.sin Real.sqrt) p).probs = ⟨1, 0, 0⟩) ∧
    (¬(400 < p.position.x ∧ p.position.x < 500) →
      (stepParticle (MathOps.mk Real.cos Real.sin Real.sqrt) p).probs
        = ⟨Real.cos (1.27 * 2.51e-3
              * (stepParticle (MathOps.mk Real.cos Real.sin Real.sqrt) p).distance_traveled
              * 10000 / p.energy) ^ 2,
           Real.sin (1.27 * 2.51e-3
              * (stepParticle (MathOps.mk Real.cos Real.sin Real.sqrt) p).distance_traveled
              * 10000 / p.energy) ^ 2, 0⟩) ∧
    (stepParticle (MathOps.mk Real.cos Real.sin Real.sqrt) p).distance_traveled
        = p.distance_traveled
          + Vector2D.magnitude (MathOps.mk Real.cos Real.sin Real.sqrt) p.velocity * dt_sim := by
  have hstep : ∀ dval : ℝ, densityAt p.position.x = dval →
      stepParticle (MathOps.mk Real.cos Real.sin Real.sqrt) p
        = propagate (MathOps.mk Real.cos Real.sin Real.sqrt) p dt_sim dval := by
    intro dval hd
    unfold stepParticle
    rw [hd]
  refine ⟨?_, ?_, rfl⟩
  · intro h
    have hd : densityAt p.position.x = (1 : ℝ) := by
      simp only [densityAt, matter_start_x, matter_width]
      rw [if_pos ⟨h.1, by linarith [h.2]⟩]
    rw [hstep 1 hd]
    show (if (1 : ℝ) > 0.5 then _ else _) = _
    rw [if_pos (by norm_num : (1 : ℝ) > 0.5)]
  · intro h
    have hd : densityAt p.position.x = (0 : ℝ) := by
      simp only [densityAt, matter_start_x, matter_width]
      rw [if_neg]
      intro hc
      exact h ⟨hc.1, by linarith [hc.2]⟩
    rw [hstep 0 hd]
    show (if (0 : ℝ) > 0.5 then _ else _) = _
    rw [if_neg (by norm_num : ¬((0 : ℝ) > 0.5))]
    norm_num [DELTA_M2_31, scale_factor]
    exact ⟨rfl, rfl⟩

/-- Witness for C2: a particle at x = 450 (inside the dense region) is
clamped to [1,0,0]; a particle at x = 10 (outside) keeps the
phase-based probabilities. -/
theorem stepParticle_matter_effect_witness :
    ((stepParticle (MathOps.mk Real.cos Real.sin Real.sqrt)
        (Neutrino.mk 0 ⟨450, 300⟩ ⟨200, 0⟩ 500 7 ⟨1, 0, 0⟩)).probs = ⟨1, 0, 0⟩) ∧
    ((stepParticle (MathOps.mk Real.cos Real.sin Real.sqrt)
        (Neutrino.mk 1 ⟨10, 300⟩ ⟨200, 0⟩ 500 7 ⟨1, 0, 0⟩)).probs
      = ⟨Real.cos (1.27 * 2.51e-3
            * (stepParticle (MathOps.mk Real.cos Real.sin Real.sqrt)
                (Neutrino.mk 1 ⟨10, 300⟩ ⟨200, 0⟩ 500 7 ⟨1, 0, 0⟩)).distance_traveled
            * 10000 / (Neutrino.mk 1 ⟨10, 300⟩ ⟨200, 0⟩ 500 7
                (⟨1, 0, 0⟩ : Probs ℝ)).energy) ^ 2,
         Real.sin (1.27 * 2.51e-3
            * (stepParticle (MathOps.mk Real.cos Real.sin Real.sqrt)
                (Neutrino.mk 1 ⟨10, 300⟩ ⟨200, 0⟩ 500 7 ⟨1, 0, 0⟩)).distance_traveled
            * 10000 / (Neutrino.mk 1 ⟨10, 300⟩ ⟨200, 0⟩ 500 7
                (⟨1, 0, 0⟩ : Probs ℝ)).energy) ^ 2, 0⟩) :=
  ⟨(stepParticle_matter_effect (Neutrino.mk 0 ⟨450, 300⟩ ⟨200, 0⟩ 500 7 ⟨1, 0, 0⟩)).1
      (by norm_num),
   (stepParticle_matter_effect (Neutrino.mk 1 ⟨10, 300⟩ ⟨200, 0⟩ 500 7 ⟨1, 0, 0⟩)).2.1
      (by norm_num)⟩

/-- The C3 invariant on a flavor probability vector: electron + muon
probabilities sum to exactly 1, the tau component is 0, and every
component lies in [0,1]. -/
def probsOK (pr : Probs ℝ) : Prop :=
  pr.p0 + pr.p1 = 1 ∧ pr.p2 = 0 ∧
  0 ≤ pr.p0 ∧ pr.p0 ≤ 1 ∧ 0 ≤ pr.p1 ∧ pr.p1 ≤ 1 ∧ 0 ≤ pr.p2 ∧ pr.p2 ≤ 1

/-- Any single propagate call (any dt, any density) re-establishes the
probability invariant outright. -/
theorem propagate_probsOK (nu : Neutrino ℝ) (dt ρ : ℝ) :
    probsOK ((propagate (MathOps.mk Real.cos Real.sin Real.sqrt) nu dt ρ).probs) := by
  by_cases hρ : ρ > 0.5
  · have h : (propagate (MathOps.mk Real.cos Real.sin Real.sqrt) nu dt ρ).probs
        = ⟨1, 0, 0⟩ := by
      show (if ρ > 0.5 then _ else _) = _
      rw [if_pos hρ]
    rw [h]
    norm_num [probsOK]
  · have h : (propagate (MathOps.mk Real.cos Real.sin Real.sqrt) nu dt ρ).probs
        = ⟨Real.cos (1.27 * DELTA_M2_31
              * (nu.distance_traveled
                + Vector2D.magnitude (MathOps.mk Real.cos Real.sin Real.sqrt) nu.velocity * dt)
              * scale_factor / nu.energy) ^ 2,
           Real.sin (1.27 * DELTA_M2_31
              * (nu.distance_traveled
                + Vector2D.magnitude (MathOps.mk Real.cos Real.sin Real.sqrt) nu.velocity * dt)
              * scale_factor / nu.energy) ^ 2, 0⟩ := by
      show (if ρ > 0.5 then _ else _) = _
      rw [if_neg hρ]
    rw [h]
    refine ⟨Real.cos_sq_add_sin_sq _, rfl, sq_nonneg _, Real.cos_sq_le_one _,
      sq_nonneg _, Real.sin_sq_le_one _, le_refl 0, by norm_num⟩

/-- C3: for every particle at every time after creation -- the initial
state (either initial flavor) and after any finite sequence of
propagate calls with arbitrary timesteps and densities -- the electron
and muon probabilities sum to exactly 1, the tau probability is 0, and
every component lies in [0,1]. -/
theorem flavor_probs_invariant (p_id : ℕ) (pos : Vector2D ℝ) (e : ℝ) (f : Flavor)
    (ang : ℝ) (steps : List (ℝ × ℝ)) :
    probsOK ((steps.foldl
      (fun nu st => propagate (MathOps.mk Real.cos Real.sin Real.sqrt) nu st.1 st.2)
      (mkNeutrino (MathOps.mk Real.cos Real.sin Real.sqrt) p_id pos e f ang)).probs) := by
  have hbase : ∀ (l : List (ℝ × ℝ)) (nu : Neutrino ℝ), probsOK nu.probs →
      probsOK ((l.foldl
        (fun nu st => propagate (MathOps.mk Real.cos Real.sin Real.sqrt) nu st.1 st.2)
        nu).probs) := by
    intro l
    induction l with
    | nil => intro nu h; exact h
    | cons s t ih => intro nu _; exact ih _ (propagate_probsOK nu s.1 s.2)
  apply hbase
  cases f <;> norm_num [mkNeutrino, probsOK]

/-- applyCmd only ever touches the running flag. -/
theorem applyCmd_fields (s : EngineState ℝ) (kvs : List (String × PyVal ℝ)) :
    (applyCmd s kvs).neutrinos = s.neutrinos ∧
    (applyCmd s kvs).particle_id_counter = s.particle_id_counter ∧
    (applyCmd s kvs).tick = s.tick := by
  unfold applyCmd
  rcases kvs.lookup "command" with _ | v
  · exact ⟨rfl, rfl, rfl⟩
  · dsimp only
    split_ifs <;> exact ⟨rfl, rfl, rfl⟩

/-- A successfully handled message never touches the particle list, the
id counter or the tick counter. -/
theorem applyMsg_fields (s s2 : EngineState ℝ) (m : PyVal ℝ)
    (h : applyMsg s m = .ok s2) :
    s2.neutrinos = s.neutrinos ∧
    s2.particle_id_counter = s.particle_id_counter ∧
    s2.tick = s.tick := by
  cases m with
  | num k => exact absurd h (by simp [applyMsg])
  | str t =>
      simp only [applyMsg] at h
      split_ifs at h
      all_goals first
        | exact Except.noConfusion h
        | (obtain rfl : s = s2 := by simpa using h
           exact ⟨rfl, rfl, rfl⟩)
  | dict kvs =>
      simp only [applyMsg] at h
      have hcmd := applyCmd_fields s kvs
      rcases hp : kvs.lookup "params" with _ | p
      · rw [hp] at h
        dsimp only at h
        obtain rfl : applyCmd s kvs = s2 := by simpa using h
        exact hcmd
      · rw [hp] at h
        rcases p with k | t | pkvs
        · exact absurd h (by simp)
        · dsimp only at h
          split_ifs at h
          all_goals first
            | exact Except.noConfusion h
            | (obtain rfl : applyCmd s kvs = s2 := by simpa using h
               exact hcmd)
        · dsimp only at h
          rcases hb : pkvs.lookup "beam_energy" with _ | v
          · rw [hb] at h
            obtain rfl : applyCmd s kvs = s2 := by simpa using h
            exact hcmd
          · rw [hb] at h
            rcases v with k | t | qkvs
            · obtain rfl : { applyCmd s kvs with energy_beam := k } = s2 := by
                simpa using h
              exact hcmd
            · exact absurd h (by simp)
            · exact absurd h (by simp)

/-- A successful drain of the whole inbox never touches the particle
list, the id counter or the tick counter. -/
theorem drainMsgs_fields (msgs : List (PyVal ℝ)) :
    ∀ s s2 : EngineState ℝ, drainMsgs s msgs = .ok s2 →
    s2.neutrinos = s.neutrinos ∧
    s2.particle_id_counter = s.particle_id_counter ∧
    s2.tick = s.tick := by
  induction msgs with
  | nil =>
      intro s s2 h
      obtain rfl : s = s2 := by simpa [drainMsgs] using h
      exact ⟨rfl, rfl, rfl⟩
  | cons m ms ih =>
      intro s s2 h
      simp only [drainMsgs] at h
      rcases ha : applyMsg s m with e | s1
      · rw [ha] at h; exact absurd h (by simp)
      · rw [ha] at h
        obtain ⟨h1, h2, h3⟩ := applyMsg_fields s s1 m ha
        obtain ⟨g1, g2, g3⟩ := ih s1 s2 h
        exact ⟨g1.trans h1, g2.trans h2, g3.trans h3⟩

/-- The C4 population/id invariant. -/
def engineInv (s : EngineState ℝ) : Prop :=
  s.neutrinos.length ≤ 150 ∧
  (s.neutrinos.map Neutrino.id).Nodup ∧
  ∀ nu ∈ s.neutrinos, nu.id < s.particle_id_counter

/-- Emission preserves the invariant: it only fires below the cap of
150 and the appended particle carries the fresh id counter value. -/
theorem emitStep_inv (s : EngineState ℝ) (d : Draws ℝ) (h : engineInv s) :
    engineInv (emitStep (MathOps.mk Real.cos Real.sin Real.sqrt) s d) := by
  obtain ⟨h1, h2, h3⟩ := h
  unfold emitStep
  split_ifs with hc
  · obtain ⟨hlen, hmod⟩ := hc
    refine ⟨?_, ?_, ?_⟩
    · dsimp only
      rw [List.length_append, List.length_singleton]
      omega
    · dsimp only
      rw [List.map_append, List.nodup_append]
      refine ⟨h2, by simp, ?_⟩
      intro a ha hb
      simp only [List.map_cons, List.map_nil, List.mem_singleton, mkNeutrino] at hb
      obtain ⟨nu, hnu, rfl⟩ := List.mem_map.mp ha
      have := h3 nu hnu
      omega
    · dsimp only
      intro nu hnu
      rcases List.mem_append.mp hnu with hm | hm
      · have := h3 nu hm
        omega
      · rw [List.mem_singleton] at hm
        subst hm
        have hidv : (mkNeutrino (MathOps.mk Real.cos Real.sin Real.sqrt)
            s.particle_id_counter ⟨10, d.y0⟩ (e_spread s d) Flavor.electron
            d.angle).id = s.particle_id_counter := rfl
        omega
  · exact ⟨h1, h2, h3⟩

/-- The physics map keeps ids (propagate copies the id field), and the
cull filter only drops elements, so both preserve the invariant. -/
theorem physicsCull_inv (l : List (Neutrino ℝ)) (c : ℕ)
    (hlen : l.length ≤ 150) (hnd : (l.map Neutrino.id).Nodup)
    (hid : ∀ nu ∈ l, nu.id < c) :
    (cullStep (l.map (stepParticle (MathOps.mk Real.cos Real.sin Real.sqrt)))).length ≤ 150 ∧
    ((cullStep (l.map (stepParticle (MathOps.mk Real.cos Real.sin Real.sqrt)))).map
        Neutrino.id).Nodup ∧
    ∀ nu ∈ cullStep (l.map (stepParticle (MathOps.mk Real.cos Real.sin Real.sqrt))),
      nu.id < c := by
  have hidsmap : (l.map (stepParticle (MathOps.mk Real.cos Real.sin Real.sqrt))).map
      Neutrino.id = l.map Neutrino.id := by
    rw [List.map_map]
    rfl
  have hsub : List.Sublist
      (cullStep (l.map (stepParticle (MathOps.mk Real.cos Real.sin Real.sqrt))))
      (l.map (stepParticle (MathOps.mk Real.cos Real.sin Real.sqrt))) :=
    List.filter_sublist _
  refine ⟨?_, ?_, ?_⟩
  · calc (cullStep (l.map (stepParticle (MathOps.mk Real.cos Real.sin Real.sqrt)))).length
        ≤ (l.map (stepParticle (MathOps.mk Real.cos Real.sin Real.sqrt))).length :=
          hsub.length_le
      _ = l.length := List.length_map _ _
      _ ≤ 150 := hlen
  · exact List.Nodup.sublist (List.Sublist.map Neutrino.id hsub)
      (by rw [hidsmap]; exact hnd)
  · intro nu hnu
    have hmem : nu ∈ l.map (stepParticle (MathOps.mk Real.cos Real.sin Real.sqrt)) :=
      hsub.subset hnu
    obtain ⟨m, hm, rfl⟩ := List.mem_map.mp hmem
    exact hid m hm

/-- Every reachable engine state satisfies the invariant. -/
theorem reach_engineInv (s : EngineState ℝ) (h : EngineReach s) : engineInv s := by
  induction h with
  | init =>
      refine ⟨by simp [initState], by simp [initState], ?_⟩
      intro nu hnu
      simp [initState] at hnu
  | step s s2 inbox d op hre ha1 ha2 hy1 hy2 htick ih =>
      unfold tickOnce at htick
      rcases hdr : drainMsgs s inbox with e | s1
      · rw [hdr] at htick
        exact absurd htick (by simp)
      · rw [hdr] at htick
        dsimp only at htick
        obtain ⟨hf1, hf2, hf3⟩ := drainMsgs_fields inbox s s1 hdr
        have hinv1 : engineInv s1 := by
          obtain ⟨i1, i2, i3⟩ := ih
          rw [engineInv, hf1, hf2]
          exact ⟨i1, i2, i3⟩
        by_cases hr : s1.running = true
        · rw [if_pos hr] at htick
          simp only [Except.ok.injEq, Prod.mk.injEq] at htick
          obtain ⟨h2, hop⟩ := htick
          subst h2
          have hemit := emitStep_inv s1 d hinv1
          obtain ⟨e1, e2, e3⟩ := hemit
          exact physicsCull_inv _ _ e1 e2 e3
        · rw [if_neg hr] at htick
          simp only [Except.ok.injEq, Prod.mk.injEq] at htick
          obtain ⟨h2, hop⟩ := htick
          subst h2
          exact hinv1

/-- C4: in every reachable engine state -- any run duration, any
command sequence, any random draws -- the live particle list has at
most 150 entries, no two live particles share an id, and every live id
is below the monotonically increasing id counter (so culled ids are
never reused). -/
theorem engine_population_invariant (s : EngineState ℝ) (h : EngineReach s) :
    s.neutrinos.length ≤ 150 ∧
    (s.neutrinos.map Neutrino.id).Nodup ∧
    ∀ nu ∈ s.neutrinos, nu.id < s.particle_id_counter :=
  reach_engineInv s h

/-- Witness for C4 at the initial state. -/
theorem engine_population_invariant_witness :
    EngineReach initState ∧
    ((initState : EngineState ℝ).neutrinos.length ≤ 150 ∧
    ((initState : EngineState ℝ).neutrinos.map Neutrino.id).Nodup ∧
    ∀ nu ∈ (initState : EngineState ℝ).neutrinos,
      nu.id < (initState : EngineState ℝ).particle_id_counter) :=
  ⟨EngineReach.init, engine_population_invariant initState EngineReach.init⟩

/-- C6 (amended): at the culling step of a running tick, a stepped
particle is kept iff its post-step position.x is strictly below 850
(so a particle at exactly 850 is removed, not kept), and every survivor
comes from the stepped list (nothing is added at the cull). -/
theorem cull_keeps_iff (s : EngineState ℝ) (d : Draws ℝ) (nu : Neutrino ℝ)
    (h : nu ∈ (emitStep (MathOps.mk Real.cos Real.sin Real.sqrt) s d).neutrinos.map
      (stepParticle (MathOps.mk Real.cos Real.sin Real.sqrt))) :
    (nu ∈ (runTick (MathOps.mk Real.cos Real.sin Real.sqrt) s d).1.neutrinos ↔
      nu.position.x < 850) ∧
    (∀ m ∈ (runTick (MathOps.mk Real.cos Real.sin Real.sqrt) s d).1.neutrinos,
      m ∈ (emitStep (MathOps.mk Real.cos Real.sin Real.sqrt) s d).neutrinos.map
        (stepParticle (MathOps.mk Real.cos Real.sin Real.sqrt))) := by
  have hrt : (runTick (MathOps.mk Real.cos Real.sin Real.sqrt) s d).1.neutrinos
      = cullStep ((emitStep (MathOps.mk Real.cos Real.sin Real.sqrt) s d).neutrinos.map
          (stepParticle (MathOps.mk Real.cos Real.sin Real.sqrt))) := rfl
  constructor
  · rw [hrt]
    unfold cullStep
    simp [List.mem_filter, h]
  · intro m hm
    rw [hrt] at hm
    exact (List.mem_filter.mp hm).1

/-- Witness for C6 (amended) at a one-particle state whose particle
steps from x = 10 to x = 13.2 and survives. -/
theorem cull_keeps_iff_witness :
    ((stepParticle (MathOps.mk Real.cos Real.sin Real.sqrt)
        (Neutrino.mk 0 ⟨10, 300⟩ ⟨200, 0⟩ 500 0 ⟨1, 0, 0⟩)
      ∈ (runTick (MathOps.mk Real.cos Real.sin Real.sqrt)
          (EngineState.mk 500 [Neutrino.mk 0 ⟨10, 300⟩ ⟨200, 0⟩ 500 0 ⟨1, 0, 0⟩] 1 1 true)
          (Draws.mk 0 300 0)).1.neutrinos ↔
      (stepParticle (MathOps.mk Real.cos Real.sin Real.sqrt)
        (Neutrino.mk 0 ⟨10, 300⟩ ⟨200, 0⟩ 500 0 ⟨1, 0, 0⟩)).position.x < 850) ∧
    (∀ m ∈ (runTick (MathOps.mk Real.cos Real.sin Real.sqrt)
          (EngineState.mk 500 [Neutrino.mk 0 ⟨10, 300⟩ ⟨200, 0⟩ 500 0 ⟨1, 0, 0⟩] 1 1 true)
          (Draws.mk 0 300 0)).1.neutrinos,
      m ∈ (emitStep (MathOps.mk Real.cos Real.sin Real.sqrt)
          (EngineState.mk 500 [Neutrino.mk 0 ⟨10, 300⟩ ⟨200, 0⟩ 500 0 ⟨1, 0, 0⟩] 1 1 true)
          (Draws.mk 0 300 0)).neutrinos.map
        (stepParticle (MathOps.mk Real.cos Real.sin Real.sqrt)))) :=
  cull_keeps_iff
    (EngineState.mk 500 [Neutrino.mk 0 ⟨10, 300⟩ ⟨200, 0⟩ 500 0 ⟨1, 0, 0⟩] 1 1 true)
    (Draws.mk 0 300 0)
    (stepParticle (MathOps.mk Real.cos Real.sin Real.sqrt)
      (Neutrino.mk 0 ⟨10, 300⟩ ⟨200, 0⟩ 500 0 ⟨1, 0, 0⟩))
    (by simp [emitStep])

/-- C6 counterexample: a particle whose post-step position.x is exactly
850 is removed by the cull (the source keeps survivors with x < 850
strictly), contradicting the claim that a particle at exactly 850 is
kept. -/
theorem cull_boundary_counterexample :
    (stepParticle (MathOps.mk Real.cos Real.sin Real.sqrt)
        (Neutrino.mk 0 ⟨846.8, 300⟩ ⟨200, 0⟩ 500 0 ⟨1, 0, 0⟩)).position.x = 850 ∧
    (runTick (MathOps.mk Real.cos Real.sin Real.sqrt)
        (EngineState.mk 500 [Neutrino.mk 0 ⟨846.8, 300⟩ ⟨200, 0⟩ 500 0 ⟨1, 0, 0⟩] 1 1 true)
        (Draws.mk 0 300 0)).1.neutrinos = [] := by
  have hx : (stepParticle (MathOps.mk Real.cos Real.sin Real.sqrt)
      (Neutrino.mk 0 ⟨846.8, 300⟩ ⟨200, 0⟩ 500 0 ⟨1, 0, 0⟩)).position.x = 850 := by
    show (846.8 : ℝ) + 200 * dt_sim = 850
    norm_num [dt_sim]
  refine ⟨hx, ?_⟩
  have hrt : (runTick (MathOps.mk Real.cos Real.sin Real.sqrt)
      (EngineState.mk 500 [Neutrino.mk 0 ⟨846.8, 300⟩ ⟨200, 0⟩ 500 0 ⟨1, 0, 0⟩] 1 1 true)
      (Draws.mk 0 300 0)).1.neutrinos
      = cullStep [stepParticle (MathOps.mk Real.cos Real.sin Real.sqrt)
          (Neutrino.mk 0 ⟨846.8, 300⟩ ⟨200, 0⟩ 500 0 ⟨1, 0, 0⟩)] := by
    show cullStep ((emitStep (MathOps.mk Real.cos Real.sin Real.sqrt)
        (EngineState.mk 500 [Neutrino.mk 0 ⟨846.8, 300⟩ ⟨200, 0⟩ 500 0 ⟨1, 0, 0⟩] 1 1 true)
        (Draws.mk 0 300 0)).neutrinos.map
          (stepParticle (MathOps.mk Real.cos Real.sin Real.sqrt))) = _
    have hemit : emitStep (MathOps.mk Real.cos Real.sin Real.sqrt)
        (EngineState.mk 500 [Neutrino.mk 0 ⟨846.8, 300⟩ ⟨200, 0⟩ 500 0 ⟨1, 0, 0⟩] 1 1 true)
        (Draws.mk 0 300 0)
        = EngineState.mk 500 [Neutrino.mk 0 ⟨846.8, 300⟩ ⟨200, 0⟩ 500 0 ⟨1, 0, 0⟩] 1 1 true := by
      unfold emitStep
      rw [if_neg]
      simp
    rw [hemit]
    rfl
  rw [hrt]
  have hdec : decide ((stepParticle (MathOps.mk Real.cos Real.sin Real.sqrt)
      (Neutrino.mk 0 ⟨846.8, 300⟩ ⟨200, 0⟩ 500 0 ⟨1, 0, 0⟩)).position.x < 850) = false := by
    rw [hx]
    exact decide_eq_false (lt_irrefl (850 : ℝ))
  simp [cullStep, List.filter_cons, hdec]

/-- C7: the drain applies the queued messages in arrival order; from
any engine state, an inbox holding STOP followed by START leaves the
engine Running (and the STOP alone would have left it Stopped, so both
messages were applied and the last one wins).  tickOnce performs this
drain before any emission, physics, culling or packing. -/
theorem drain_stop_start_running (s : EngineState ℝ) :
    drainMsgs s [stopMsg, startMsg] = .ok { s with running := true } ∧
    drainMsgs s [stopMsg] = .ok { s with running := false } :=
  ⟨rfl, rfl⟩

/-- C10: every packet runTick publishes carries an outline_color array
that is the constant '#FFFFFF' repeated once per live particle, and it
is index-aligned with the other agent arrays and the count. -/
theorem packet_outline_constant (s : EngineState ℝ) (d : Draws ℝ) :
    (runTick (MathOps.mk Real.cos Real.sin Real.sqrt) s d).2.outline_color
      = List.replicate
          (runTick (MathOps.mk Real.cos Real.sin Real.sqrt) s d).1.neutrinos.length
          "#FFFFFF" ∧
    (runTick (MathOps.mk Real.cos Real.sin Real.sqrt) s d).2.outline_color.length
      = (runTick (MathOps.mk Real.cos Real.sin Real.sqrt) s d).2.x.length ∧
    (runTick (MathOps.mk Real.cos Real.sin Real.sqrt) s d).2.outline_color.length
      = (runTick (MathOps.mk Real.cos Real.sin Real.sqrt) s d).2.y.length ∧
    (runTick (MathOps.mk Real.cos Real.sin Real.sqrt) s d).2.outline_color.length
      = (runTick (MathOps.mk Real.cos Real.sin Real.sqrt) s d).2.color.length ∧
    (runTick (MathOps.mk Real.cos Real.sin Real.sqrt) s d).2.outline_color.length
      = (runTick (MathOps.mk Real.cos Real.sin Real.sqrt) s d).2.size.length ∧
    (runTick (MathOps.mk Real.cos Real.sin Real.sqrt) s d).2.outline_color.length
      = (runTick (MathOps.mk Real.cos Real.sin Real.sqrt) s d).2.count ∧
    (runTick (MathOps.mk Real.cos Real.sin Real.sqrt) s d).2.count
      = (runTick (MathOps.mk Real.cos Real.sin Real.sqrt) s d).1.neutrinos.length := by
  refine ⟨rfl, ?_, ?_, ?_, ?_, ?_, rfl⟩ <;> simp [runTick, packetOf]

/-- C8 counterexample: a drained message that is not a recognized
command or parameter update -- here the bare number 42 -- does NOT get
silently ignored: the membership test on a number raises TypeError,
which reaches the outer handler, and the run loop terminates (.error). -/
theorem malformed_message_fatal_counterexample :
    tickOnce (MathOps.mk Real.cos Real.sin Real.sqrt) initState [PyVal.num (42 : ℝ)]
      (Draws.mk 0 300 0) = .error .typeError := rfl

/-- C8 (amended): a drained dict message whose command value (if any)
is neither "START" nor "STOP" and whose params value (if any) is a dict
without a beam_energy key is silently ignored: the drain completes with
the state unchanged and the run loop continues. -/
theorem unknown_dict_message_ignored (s : EngineState ℝ)
    (kvs : List (String × PyVal ℝ))
    (hcmd : ∀ v, kvs.lookup "command" = some v →
      isStrEq v "START" = false ∧ isStrEq v "STOP" = false)
    (hpar : ∀ p, kvs.lookup "params" = some p →
      ∃ pkvs, p = PyVal.dict pkvs ∧ pkvs.lookup "beam_energy" = none) :
    drainMsgs s [PyVal.dict kvs] = .ok s ∧
    applyMsg s (PyVal.dict kvs) = .ok s := by
  have hs1 : applyCmd s kvs = s := by
    unfold applyCmd
    rcases hk : kvs.lookup "command" with _ | v
    · rfl
    · obtain ⟨h1, h2⟩ := hcmd v hk
      dsimp only
      rw [h1, h2]
      simp
  have hax : applyMsg s (PyVal.dict kvs) = .ok s := by
    unfold applyMsg
    dsimp only
    rcases hp : kvs.lookup "params" with _ | p
    · rw [hs1]
    · obtain ⟨pkvs, rfl, hb⟩ := hpar p hp
      rw [hs1]
      dsimp only
      rw [hb]
  refine ⟨?_, hax⟩
  unfold drainMsgs
  rw [hax]
  rfl

/-- Witness for C8 (amended) at the unknown command "JUMP". -/
theorem unknown_dict_message_ignored_witness :
    drainMsgs (initState : EngineState ℝ)
      [PyVal.dict [("command", PyVal.str "JUMP")]] = .ok initState ∧
    applyMsg (initState : EngineState ℝ)
      (PyVal.dict [("command", PyVal.str "JUMP")]) = .ok initState :=
  unknown_dict_message_ignored initState [("command", PyVal.str "JUMP")]
    (fun v hv => by
      have hveq : v = PyVal.str "JUMP" := by
        simpa [List.lookup] using hv.symm
      subst hveq
      exact ⟨rfl, rfl⟩)
    (fun p hp => by simp [List.lookup] at hp)

/-- C9 (amended): for a particle with nonzero energy, advance is total
and never fails -- the checked propagate succeeds and returns exactly
the pure propagate result. -/
theorem propagate_total_nonzero_energy (nu : Neutrino ℝ) (dt ρ : ℝ)
    (h : nu.energy ≠ 0) :
    propagateChecked (MathOps.mk Real.cos Real.sin Real.sqrt) nu dt ρ
      = .ok (propagate (MathOps.mk Real.cos Real.sin Real.sqrt) nu dt ρ) := by
  unfold propagateChecked
  rw [if_neg]
  intro hc
  exact h hc.1

/-- Witness for C9 (amended) at a 500 MeV particle. -/
theorem propagate_total_nonzero_energy_witness :
    (Neutrino.mk 0 ⟨10, 300⟩ ⟨200, 0⟩ (500 : ℝ) 0 ⟨1, 0, 0⟩).energy ≠ 0 ∧
    propagateChecked (MathOps.mk Real.cos Real.sin Real.sqrt)
      (Neutrino.mk 0 ⟨10, 300⟩ ⟨200, 0⟩ 500 0 ⟨1, 0, 0⟩) 0.016 0
      = .ok (propagate (MathOps.mk Real.cos Real.sin Real.sqrt)
          (Neutrino.mk 0 ⟨10, 300⟩ ⟨200, 0⟩ 500 0 ⟨1, 0, 0⟩) 0.016 0) :=
  ⟨by norm_num,
   propagate_total_nonzero_energy (Neutrino.mk 0 ⟨10, 300⟩ ⟨200, 0⟩ 500 0 ⟨1, 0, 0⟩)
     0.016 0 (by norm_num)⟩

/-- C9 counterexample: the emission step can produce a particle with
energy exactly 0 (a -20 sigma Gaussian deviate at the default beam
energy 500 gives e_spread = 500 + 500 * 0.05 * (-20) = 0), and on that
particle the first advance call fails: the phase division by zero
energy yields an infinity whose sine raises ValueError. -/
theorem zero_energy_emission_fails :
    (emitStep (MathOps.mk Real.cos Real.sin Real.sqrt)
        ({ initState with running := true } : EngineState ℝ)
        (Draws.mk 0 300 (-20))).neutrinos.head?
      = some (mkNeutrino (MathOps.mk Real.cos Real.sin Real.sqrt) 0 ⟨10, 300⟩
          (e_spread ({ initState with running := true } : EngineState ℝ)
            (Draws.mk 0 300 (-20))) Flavor.electron 0) ∧
    e_spread ({ initState with running := true } : EngineState ℝ)
      (Draws.mk 0 300 (-20)) = 0 ∧
    propagateChecked (MathOps.mk Real.cos Real.sin Real.sqrt)
      (mkNeutrino (MathOps.mk Real.cos Real.sin Real.sqrt) 0 ⟨10, 300⟩
        (e_spread ({ initState with running := true } : EngineState ℝ)
          (Draws.mk 0 300 (-20))) Flavor.electron 0) dt_sim 0
      = .error .valueError := by
  have hE : e_spread ({ initState with running := true } : EngineState ℝ)
      (Draws.mk 0 300 (-20)) = 0 := by
    norm_num [e_spread, initState]
  refine ⟨rfl, hE, ?_⟩
  have hm : Vector2D.magnitude (MathOps.mk Real.cos Real.sin Real.sqrt)
      (mkNeutrino (MathOps.mk Real.cos Real.sin Real.sqrt) 0 ⟨10, 300⟩
        (e_spread ({ initState with running := true } : EngineState ℝ)
          (Draws.mk 0 300 (-20))) Flavor.electron 0).velocity = 200 :=
    beam_speed 0
  have hcond : (mkNeutrino (MathOps.mk Real.cos Real.sin Real.sqrt) 0 ⟨10, 300⟩
      (e_spread ({ initState with running := true } : EngineState ℝ)
        (Draws.mk 0 300 (-20))) Flavor.electron 0).energy = 0 ∧
      (mkNeutrino (MathOps.mk Real.cos Real.sin Real.sqrt) 0 ⟨10, 300⟩
        (e_spread ({ initState with running := true } : EngineState ℝ)
          (Draws.mk 0 300 (-20))) Flavor.electron 0).distance_traveled
        + Vector2D.magnitude (MathOps.mk Real.cos Real.sin Real.sqrt)
            (mkNeutrino (MathOps.mk Real.cos Real.sin Real.sqrt) 0 ⟨10, 300⟩
              (e_spread ({ initState with running := true } : EngineState ℝ)
                (Draws.mk 0 300 (-20))) Flavor.electron 0).velocity * dt_sim ≠ 0 := by
    refine ⟨hE, ?_⟩
    rw [hm]
    show (0 : ℝ) + 200 * dt_sim ≠ 0
    norm_num [dt_sim]
  unfold propagateChecked
  rw [if_pos hcond]

/-- Channel truncation bounds: for a probability in [0,1] the truncated
channel int(p * 255) already lies in [0, 255], so no clamping is ever
needed. -/
theorem floor_channel_bounds (p : ℝ) (h0 : 0 ≤ p) (h1 : p ≤ 1) :
    0 ≤ Int.floor (p * 255) ∧ Int.floor (p * 255) ≤ 255 := by
  constructor
  · exact Int.floor_nonneg.mpr (by nlinarith)
  · have hlt : Int.floor (p * 255) < 256 := by
      rw [Int.floor_lt]
      push_cast
      nlinarith
    omega

/-- C5 (amended): every published packet's color array maps each
surviving particle's flavor probabilities through the truncating
encoder colorOf (channels are int(prob * 255), i.e. the floor on these
non-negative values, not the rounded value); no clamping is performed
but each channel of a valid probability vector already lies in
[0, 255]; and [1,0,0] encodes to '#ff0000' and [0,1,0] to '#00ff00'. -/
theorem snapshot_color_trunc (s : EngineState ℝ) (d : Draws ℝ) :
    (runTick (MathOps.mk Real.cos Real.sin Real.sqrt) s d).2.color
      = (runTick (MathOps.mk Real.cos Real.sin Real.sqrt) s d).1.neutrinos.map
          (fun nu => colorOf nu.probs) ∧
    colorOf (⟨1, 0, 0⟩ : Probs ℝ) = "#ff0000" ∧
    colorOf (⟨0, 1, 0⟩ : Probs ℝ) = "#00ff00" ∧
    (∀ pr : Probs ℝ, probsOK pr →
      (0 ≤ Int.floor (pr.p0 * 255) ∧ Int.floor (pr.p0 * 255) ≤ 255) ∧
      (0 ≤ Int.floor (pr.p1 * 255) ∧ Int.floor (pr.p1 * 255) ≤ 255) ∧
      (0 ≤ Int.floor (pr.p2 * 255) ∧ Int.floor (pr.p2 * 255) ≤ 255)) := by
  have f255 : Int.floor ((1 : ℝ) * 255) = 255 :=
    Int.floor_eq_iff.mpr ⟨by norm_num, by norm_num⟩
  have f0 : Int.floor ((0 : ℝ) * 255) = 0 :=
    Int.floor_eq_iff.mpr ⟨by norm_num, by norm_num⟩
  refine ⟨rfl, ?_, ?_, ?_⟩
  · unfold colorOf
    dsimp only
    rw [f255, f0]
    rfl
  · unfold colorOf
    dsimp only
    rw [f255, f0]
    rfl
  · intro pr hpr
    obtain ⟨hsum, hp2, h00, h01, h10, h11, h20, h21⟩ := hpr
    exact ⟨floor_channel_bounds pr.p0 h00 h01,
           floor_channel_bounds pr.p1 h10 h11,
           floor_channel_bounds pr.p2 h20 h21⟩

/-- Witness for C5 (amended) at the pure electron probability vector. -/
theorem snapshot_color_trunc_witness :
    probsOK (⟨1, 0, 0⟩ : Probs ℝ) ∧
    colorOf (⟨1, 0, 0⟩ : Probs ℝ) = "#ff0000" ∧
    ((0 ≤ Int.floor ((⟨1, 0, 0⟩ : Probs ℝ).p0 * 255) ∧
        Int.floor ((⟨1, 0, 0⟩ : Probs ℝ).p0 * 255) ≤ 255) ∧
     (0 ≤ Int.floor ((⟨1, 0, 0⟩ : Probs ℝ).p1 * 255) ∧
        Int.floor ((⟨1, 0, 0⟩ : Probs ℝ).p1 * 255) ≤ 255) ∧
     (0 ≤ Int.floor ((⟨1, 0, 0⟩ : Probs ℝ).p2 * 255) ∧
        Int.floor ((⟨1, 0, 0⟩ : Probs ℝ).p2 * 255) ≤ 255)) :=
  ⟨by norm_num [probsOK],
   (snapshot_color_trunc initState (Draws.mk 0 300 0)).2.1,
   (snapshot_color_trunc initState (Draws.mk 0 300 0)).2.2.2 ⟨1, 0, 0⟩
     (by norm_num [probsOK])⟩

/-- The Gaussian deviate (408.0256/pi - 500)/25 makes the sampled
emission energy exactly 408.0256/pi at the default beam energy 500. -/
theorem roundCx_energy :
    e_spread ({ initState with running := true } : EngineState ℝ)
      (Draws.mk 0 300 ((408.0256 / Real.pi - 500) / 25)) = 408.0256 / Real.pi := by
  show (500 : ℝ) + 500 * 0.05 * ((408.0256 / Real.pi - 500) / 25) = 408.0256 / Real.pi
  have hpi := Real.pi_ne_zero
  field_simp
  ring

/-- At emission energy 408.0256/pi, the oscillation phase after the
first 0.016-tick (path length 3.2) is exactly pi/4. -/
theorem roundCx_arg :
    1.27 * DELTA_M2_31
      * ((mkNeutrino (MathOps.mk Real.cos Real.sin Real.sqrt) 0 ⟨10, 300⟩
            (e_spread ({ initState with running := true } : EngineState ℝ)
              (Draws.mk 0 300 ((408.0256 / Real.pi - 500) / 25)))
            Flavor.electron 0).distance_traveled
          + Vector2D.magnitude (MathOps.mk Real.cos Real.sin Real.sqrt)
              (mkNeutrino (MathOps.mk Real.cos Real.sin Real.sqrt) 0 ⟨10, 300⟩
                (e_spread ({ initState with running := true } : EngineState ℝ)
                  (Draws.mk 0 300 ((408.0256 / Real.pi - 500) / 25)))
                Flavor.electron 0).velocity * dt_sim)
      * scale_factor
      / (mkNeutrino (MathOps.mk Real.cos Real.sin Real.sqrt) 0 ⟨10, 300⟩
            (e_spread ({ initState with running := true } : EngineState ℝ)
              (Draws.mk 0 300 ((408.0256 / Real.pi - 500) / 25)))
            Flavor.electron 0).energy
      = Real.pi / 4 := by
  rw [show (mkNeutrino (MathOps.mk Real.cos Real.sin Real.sqrt) 0 ⟨10, 300⟩
        (e_spread ({ initState with running := true } : EngineState ℝ)
          (Draws.mk 0 300 ((408.0256 / Real.pi - 500) / 25)))
        Flavor.electron 0).distance_traveled = (0 : ℝ) from rfl]
  rw [show Vector2D.magnitude (MathOps.mk Real.cos Real.sin Real.sqrt)
        (mkNeutrino (MathOps.mk Real.cos Real.sin Real.sqrt) 0 ⟨10, 300⟩
          (e_spread ({ initState with running := true } : EngineState ℝ)
            (Draws.mk 0 300 ((408.0256 / Real.pi - 500) / 25)))
          Flavor.electron 0).velocity = (200 : ℝ) from beam_speed 0]
  rw [show (mkNeutrino (MathOps.mk Real.cos Real.sin Real.sqrt) 0 ⟨10, 300⟩
        (e_spread ({ initState with running := true } : EngineState ℝ)
          (Draws.mk 0 300 ((408.0256 / Real.pi - 500) / 25)))
        Flavor.electron 0).energy
      = e_spread ({ initState with running := true } : EngineState ℝ)
          (Draws.mk 0 300 ((408.0256 / Real.pi - 500) / 25)) from rfl]
  rw [roundCx_energy]
  simp only [DELTA_M2_31, scale_factor, dt_sim]
  have hpi := Real.pi_ne_zero
  rw [div_div_eq_mul_div, div_eq_div_iff (by norm_num : (408.0256 : ℝ) ≠ 0)
    (by norm_num : (4 : ℝ) ≠ 0)]
  ring_nf

/-- The first physics step of the zero-tick emitted particle at energy
408.0256/pi lands exactly on probabilities (1/2, 1/2, 0). -/
theorem roundCx_probs :
    (stepParticle (MathOps.mk Real.cos Real.sin Real.sqrt)
      (mkNeutrino (MathOps.mk Real.cos Real.sin Real.sqrt) 0 ⟨10, 300⟩
        (e_spread ({ initState with running := true } : EngineState ℝ)
          (Draws.mk 0 300 ((408.0256 / Real.pi - 500) / 25)))
        Flavor.electron 0)).probs = ⟨1/2, 1/2, 0⟩ := by
  unfold stepParticle
  rw [show (mkNeutrino (MathOps.mk Real.cos Real.sin Real.sqrt) 0 ⟨10, 300⟩
        (e_spread ({ initState with running := true } : EngineState ℝ)
          (Draws.mk 0 300 ((408.0256 / Real.pi - 500) / 25)))
        Flavor.electron 0).position.x = (10 : ℝ) from rfl]
  have hd : densityAt (10 : ℝ) = (0 : ℝ) := by
    norm_num [densityAt, matter_start_x, matter_width]
  rw [hd]
  show (if (0 : ℝ) > 0.5 then _ else _) = _
  rw [if_neg (by norm_num : ¬((0 : ℝ) > 0.5))]
  rw [roundCx_arg]
  dsimp only
  rw [Real.cos_pi_div_four, Real.sin_pi_div_four]
  have hsq : (Real.sqrt 2 / 2) ^ 2 = (1 : ℝ) / 2 := by
    rw [div_pow, Real.sq_sqrt (by norm_num : (0 : ℝ) ≤ 2)]
    norm_num
  rw [hsq]

/-- The stepped particle of the counterexample tick sits at x = 13.2. -/
theorem roundCx_x :
    (stepParticle (MathOps.mk Real.cos Real.sin Real.sqrt)
      (mkNeutrino (MathOps.mk Real.cos Real.sin Real.sqrt) 0 ⟨10, 300⟩
        (e_spread ({ initState with running := true } : EngineState ℝ)
          (Draws.mk 0 300 ((408.0256 / Real.pi - 500) / 25)))
        Flavor.electron 0)).position.x = 13.2 := by
  show (10 : ℝ) + Real.cos 0 * C_LIGHT_SIM * dt_sim = 13.2
  rw [Real.cos_zero]
  norm_num [C_LIGHT_SIM, dt_sim]

/-- The counterexample particle survives the cull (13.2 < 850). -/
theorem roundCx_surv :
    cullStep [stepParticle (MathOps.mk Real.cos Real.sin Real.sqrt)
      (mkNeutrino (MathOps.mk Real.cos Real.sin Real.sqrt) 0 ⟨10, 300⟩
        (e_spread ({ initState with running := true } : EngineState ℝ)
          (Draws.mk 0 300 ((408.0256 / Real.pi - 500) / 25)))
        Flavor.electron 0)]
    = [stepParticle (MathOps.mk Real.cos Real.sin Real.sqrt)
      (mkNeutrino (MathOps.mk Real.cos Real.sin Real.sqrt) 0 ⟨10, 300⟩
        (e_spread ({ initState with running := true } : EngineState ℝ)
          (Draws.mk 0 300 ((408.0256 / Real.pi - 500) / 25)))
        Flavor.electron 0)] := by
  have hdx : decide ((stepParticle (MathOps.mk Real.cos Real.sin Real.sqrt)
      (mkNeutrino (MathOps.mk Real.cos Real.sin Real.sqrt) 0 ⟨10, 300⟩
        (e_spread ({ initState with running := true } : EngineState ℝ)
          (Draws.mk 0 300 ((408.0256 / Real.pi - 500) / 25)))
        Flavor.electron 0)).position.x < 850) = true := by
    rw [roundCx_x]
    exact decide_eq_true (by norm_num)
  simp [cullStep, List.filter_cons, hdx]

/-- colorOf truncates (1/2, 1/2, 0) to the hex string '#7f7f00'. -/
theorem roundCx_colorVal : colorOf (⟨1/2, 1/2, 0⟩ : Probs ℝ) = "#7f7f00" := by
  have f127 : Int.floor ((1 / 2 : ℝ) * 255) = 127 :=
    Int.floor_eq_iff.mpr ⟨by norm_num, by norm_num⟩
  have f0 : Int.floor ((0 : ℝ) * 255) = 0 :=
    Int.floor_eq_iff.mpr ⟨by norm_num, by norm_num⟩
  unfold colorOf
  dsimp only
  rw [f127, f0]
  rfl

/-- The spec's round-then-clamp encoder sends (1/2, 1/2, 0) to
'#808000' instead (127.5 rounds up to 128). -/
theorem roundCx_roundVal : roundColorOf (⟨1/2, 1/2, 0⟩ : Probs ℝ) = "#808000" := by
  have r128 : round ((1 / 2 : ℝ) * 255) = 128 := by
    rw [round_eq]
    exact Int.floor_eq_iff.mpr ⟨by norm_num, by norm_num⟩
  have r0 : round ((0 : ℝ) * 255) = 0 := by
    rw [round_eq]
    exact Int.floor_eq_iff.mpr ⟨by norm_num, by norm_num⟩
  unfold roundColorOf
  dsimp only
  rw [r128, r0]
  rfl

/-- C5 counterexample: a genuine published snapshot whose color entry
is '#7f7f00' while the claim's round-based encoding of the same live
particle's probabilities is '#808000'.  Starting from the initial state
with inbox [START] and the Gaussian draw that makes the emitted energy
408.0256/pi, the first tick emits one particle, advances it to phase
pi/4 (probabilities (1/2, 1/2, 0)), keeps it, and publishes the packet:
the code truncates 127.5 to 127 (hex 7f) where round(127.5) = 128
(hex 80). -/
theorem snapshot_color_round_counterexample :
    (tickOnce (MathOps.mk Real.cos Real.sin Real.sqrt) initState [startMsg]
        (Draws.mk 0 300 ((408.0256 / Real.pi - 500) / 25))).map
        (fun r => Option.map (fun pkt => pkt.color) r.2) = .ok (some ["#7f7f00"]) ∧
    (tickOnce (MathOps.mk Real.cos Real.sin Real.sqrt) initState [startMsg]
        (Draws.mk 0 300 ((408.0256 / Real.pi - 500) / 25))).map
        (fun r => r.1.neutrinos.map (fun nu => roundColorOf nu.probs)) = .ok ["#808000"] ∧
    ("#7f7f00" : String) ≠ "#808000" := by
  have htick : tickOnce (MathOps.mk Real.cos Real.sin Real.sqrt) initState [startMsg]
      (Draws.mk 0 300 ((408.0256 / Real.pi - 500) / 25))
      = .ok ((runTick (MathOps.mk Real.cos Real.sin Real.sqrt)
            ({ initState with running := true } : EngineState ℝ)
            (Draws.mk 0 300 ((408.0256 / Real.pi - 500) / 25))).1,
          some (runTick (MathOps.mk Real.cos Real.sin Real.sqrt)
            ({ initState with running := true } : EngineState ℝ)
            (Draws.mk 0 300 ((408.0256 / Real.pi - 500) / 25))).2) := rfl
  have hcolor_list : (runTick (MathOps.mk Real.cos Real.sin Real.sqrt)
      ({ initState with running := true } : EngineState ℝ)
      (Draws.mk 0 300 ((408.0256 / Real.pi - 500) / 25))).2.color
      = [colorOf (⟨1/2, 1/2, 0⟩ : Probs ℝ)] := by
    show (cullStep [stepParticle (MathOps.mk Real.cos Real.sin Real.sqrt)
        (mkNeutrino (MathOps.mk Real.cos Real.sin Real.sqrt) 0 ⟨10, 300⟩
          (e_spread ({ initState with running := true } : EngineState ℝ)
            (Draws.mk 0 300 ((408.0256 / Real.pi - 500) / 25)))
          Flavor.electron 0)]).map (fun nu => colorOf nu.probs)
      = [colorOf (⟨1/2, 1/2, 0⟩ : Probs ℝ)]
    rw [roundCx_surv]
    show [colorOf (stepParticle (MathOps.mk Real.cos Real.sin Real.sqrt)
        (mkNeutrino (MathOps.mk Real.cos Real.sin Real.sqrt) 0 ⟨10, 300⟩
          (e_spread ({ initState with running := true } : EngineState ℝ)
            (Draws.mk 0 300 ((408.0256 / Real.pi - 500) / 25)))
          Flavor.electron 0)).probs]
      = [colorOf (⟨1/2, 1/2, 0⟩ : Probs ℝ)]
    rw [roundCx_probs]
  have hstate_list : (runTick (MathOps.mk Real.cos Real.sin Real.sqrt)
      ({ initState with running := true } : EngineState ℝ)
      (Draws.mk 0 300 ((408.0256 / Real.pi - 500) / 25))).1.neutrinos.map
        (fun nu => roundColorOf nu.probs)
      = [roundColorOf (⟨1/2, 1/2, 0⟩ : Probs ℝ)] := by
    show (cullStep [stepParticle (MathOps.mk Real.cos Real.sin Real.sqrt)
        (mkNeutrino (MathOps.mk Real.cos Real.sin Real.sqrt) 0 ⟨10, 300⟩
          (e_spread ({ initState with running := true } : EngineState ℝ)
            (Draws.mk 0 300 ((408.0256 / Real.pi - 500) / 25)))
          Flavor.electron 0)]).map (fun nu => roundColorOf nu.probs)
      = [roundColorOf (⟨1/2, 1/2, 0⟩ : Probs ℝ)]
    rw [roundCx_surv]
    show [roundColorOf (stepParticle (MathOps.mk Real.cos Real.sin Real.sqrt)
        (mkNeutrino (MathOps.mk Real.cos Real.sin Real.sqrt) 0 ⟨10, 300⟩
          (e_spread ({ initState with running := true } : EngineState ℝ)
            (Draws.mk 0 300 ((408.0256 / Real.pi - 500) / 25)))
          Flavor.electron 0)).probs]
      = [roundColorOf (⟨1/2, 1/2, 0⟩ : Probs ℝ)]
    rw [roundCx_probs]
  refine ⟨?_, ?_, by decide⟩
  · rw [htick]
    show Except.ok (some ((runTick (MathOps.mk Real.cos Real.sin Real.sqrt)
        ({ initState with running := true } : EngineState ℝ)
        (Draws.mk 0 300 ((408.0256 / Real.pi - 500) / 25))).2.color))
      = .ok (some ["#7f7f00"])
    rw [hcolor_list, roundCx_colorVal]
  · rw [htick]
    show Except.ok ((runTick (MathOps.mk Real.cos Real.sin Real.sqrt)
        ({ initState with running := true } : EngineState ℝ)
        (Draws.mk 0 300 ((408.0256 / Real.pi - 500) / 25))).1.neutrinos.map
          (fun nu => roundColorOf nu.probs))
      = .ok ["#808000"]
    rw [hstate_list, roundCx_roundVal]
